import Mathlib

/-!
Verification development for the TonatiuhXX excerpt: Open Inventor scene
nodes (SunNode3D, SkyNode3D), the InstanceNode interface header, the
photon-export base class PhotonsAbstract, the install launcher script and
the SoQt smoketest, shallowly embedded in Lean 4.
-/

namespace Tonatiuh

/-! ## SunNode3D (SunNode3D.h / SunNode3D.cpp)

The sun node keeps an `SoTransform` whose `rotation` field it recomputes
from a `SunPosition` (azimuth/elevation, in degrees) whenever the attached
node sensor fires.  `SbRotation` values are embedded as a free term algebra
of axis-angle rotations and their products; angles are kept symbolically in
degrees (the C++ converts to radians with `gcf::degree` before building the
quaternion, a bijective change of units). -/

/-- Embedding of `SbVec3f` axis arguments (exact coordinates). -/
structure Vec3 where
  x : ℚ
  y : ℚ
  z : ℚ
deriving DecidableEq, Repr

/-- The x axis, `SbVec3f(1.f, 0.f, 0.f)`. -/
def xAxis : Vec3 := ⟨1, 0, 0⟩

/-- The z axis, `SbVec3f(0.f, 0.f, 1.f)`. -/
def zAxis : Vec3 := ⟨0, 0, 1⟩

/-- Embedding of `SbRotation` values as symbolic terms: the default
(identity) rotation, an axis-angle rotation (angle in degrees), and the
product `a * b` of `SbRotation::operator*`. -/
inductive SbRot where
  | identity : SbRot
  | axisAngleDeg (axis : Vec3) (angleDeg : ℚ) : SbRot
  | mul (a b : SbRot) : SbRot
deriving DecidableEq, Repr

/-- Embedding of `SunPosition`: the two fields `SunNode3D::update` reads,
`azimuth` and `elevation`, both in degrees. -/
structure SunPosition where
  azimuth : ℚ
  elevation : ℚ
deriving DecidableEq, Repr

/-- Embedding of `SoTransform`: only the `rotation` field is touched by the
sun node. -/
structure SoTransform where
  rotation : SbRot
deriving DecidableEq, Repr

/-- Embedding of `SoNodeSensor`: the node it is attached to, if any
(`getAttachedNode` returns null when detached).  The sensor of a
`SunNode3D` is only ever attached to a `SunPosition`. -/
structure SoNodeSensor where
  attachedNode : Option SunPosition
deriving DecidableEq, Repr

/-- Embedding of the `SunNode3D` object state: the two data members the
static callback `update` reads through the `void* data` pointer. -/
structure SunNode3D where
  m_transform : Option SoTransform
  m_sensor : Option SoNodeSensor
deriving DecidableEq, Repr

/-- The rotation value built in the body of `SunNode3D::update`:
`SbRotation(x, (90 + elevation)*degree) * SbRotation(z, -azimuth*degree)`,
kept in degrees. -/
def sunRot (sp : SunPosition) : SbRot :=
  SbRot.mul
    (SbRot.axisAngleDeg xAxis (90 + sp.elevation))
    (SbRot.axisAngleDeg zAxis (-sp.azimuth))

/-- Embedding of `SunNode3D::update(void* data, SoSensor*)`.  The
`void* data` argument may be null, hence `Option SunNode3D`; an early
`return` leaves the object unchanged.  Mirrors SunNode3D.cpp lines
116-134. -/
def SunNode3D.update (data : Option SunNode3D) : Option SunNode3D :=
  match data with
  | none => none
  | some node =>
    match node.m_sensor, node.m_transform with
    | some sensor, some tr =>
      match sensor.attachedNode with
      | none => some node
      | some sp =>
        some { node with
               m_transform := some { tr with rotation := sunRot sp } }
    | _, _ => some node

/-! ## InstanceNode (header, InstanceNode.h)

The excerpt contains only the class declaration.  The member table below
transcribes each member function of the header together with whether the
excerpt gives it a body (an inline body in the header; no InstanceNode
translation unit is part of the excerpt). -/

/-- One member function of the `InstanceNode` class declaration:
its name and whether the excerpt defines a body for it. -/
structure CppMember where
  mname : String
  hasBodyInSource : Bool
deriving DecidableEq, Repr

/-- The member functions declared by `class InstanceNode` and the two
free `QDataStream` operators, transcribed from InstanceNode.h.  Only the
accessors written inline in the header carry a body in the excerpt. -/
def instanceNodeMembers : List CppMember :=
  [ ⟨"InstanceNode", false⟩
  , ⟨"~InstanceNode", false⟩
  , ⟨"getNode", true⟩
  , ⟨"setNode", true⟩
  , ⟨"getParent", true⟩
  , ⟨"setParent", true⟩
  , ⟨"getBox", true⟩
  , ⟨"setBox", true⟩
  , ⟨"getTransform", true⟩
  , ⟨"setTransform", true⟩
  , ⟨"addChild", false⟩
  , ⟨"insertChild", false⟩
  , ⟨"replaceChild", false⟩
  , ⟨"operator==", false⟩
  , ⟨"getURL", false⟩
  , ⟨"Print", false⟩
  , ⟨"intersect", false⟩
  , ⟨"extendBoxForLight", false⟩
  , ⟨"updateTree", false⟩
  , ⟨"collectShapeTransforms", false⟩
  , ⟨"operator<<", false⟩
  , ⟨"operator>>", false⟩ ]

/-- A member name is declared in the header iff it appears in the table. -/
def instanceNodeDeclares (n : String) : Bool :=
  instanceNodeMembers.any (fun m => m.mname == n)

/-- A member name has a definition in the excerpt iff the table records an
inline body for it. -/
def instanceNodeDefines (n : String) : Bool :=
  instanceNodeMembers.any (fun m => m.mname == n && m.hasBodyInSource)

/-- Embedding of the inline-defined pair `getNode`/`setNode` on the data
members of `InstanceNode` (`m_node` modeled as an abstract node id). -/
structure InstanceNodeState where
  m_node : Option Nat
  m_parentId : Option Nat
deriving DecidableEq, Repr

/-- `setNode` stores the pointer: `void setNode(SoNode* node) { m_node = node; }`. -/
def InstanceNodeState.setNode (s : InstanceNodeState) (n : Option Nat) :
    InstanceNodeState :=
  { s with m_node := n }

/-- `getNode` returns the stored pointer: `SoNode* getNode() const { return m_node; }`. -/
def InstanceNodeState.getNode (s : InstanceNodeState) : Option Nat :=
  s.m_node

/-! ## PhotonsAbstract (PhotonsAbstract.h / PhotonsAbstract.cpp) -/

/-- Opaque embedding of `SceneTreeModel` (only ever stored by pointer). -/
structure SceneTreeModel where
  modelId : Nat
deriving DecidableEq, Repr

/-- Opaque embedding of `Photon` (only ever passed through). -/
structure Photon where
  photonId : Nat
deriving DecidableEq, Repr

/-- Embedding of the data members of `PhotonsAbstract`
(PhotonsAbstract.h lines 34-44): `QStringList` becomes `List String`. -/
structure PhotonsAbstract where
  m_sceneModel : Option SceneTreeModel
  m_saveAllPhotonsData : Bool
  m_surfaces : List String
  m_saveCoordinates : Bool
  m_saveCoordinatesGlobal : Bool
  m_saveSurfaceID : Bool
  m_saveSurfaceSide : Bool
  m_savePhotonsID : Bool
deriving DecidableEq, Repr

/-- The in-class member initializers of PhotonsAbstract.h: every flag
`= false`, `m_sceneModel = nullptr`, `m_surfaces` default-constructed
(empty). -/
def PhotonsAbstract.inClassInit : PhotonsAbstract :=
  { m_sceneModel := none
  , m_saveAllPhotonsData := false
  , m_surfaces := []
  , m_saveCoordinates := false
  , m_saveCoordinatesGlobal := false
  , m_saveSurfaceID := false
  , m_saveSurfaceSide := false
  , m_savePhotonsID := false }

/-- Embedding of the constructor `PhotonsAbstract::PhotonsAbstract()`
(PhotonsAbstract.cpp lines 5-14): its initializer list overrides the
in-class initializers member by member; `m_surfaces`, absent from the
list, keeps its in-class (default-constructed) value. -/
def PhotonsAbstract.construct : PhotonsAbstract :=
  { PhotonsAbstract.inClassInit with
    m_sceneModel := none
  , m_saveAllPhotonsData := false
  , m_saveCoordinates := false
  , m_saveCoordinatesGlobal := true
  , m_saveSurfaceID := false
  , m_saveSurfaceSide := false
  , m_savePhotonsID := false }

/-- Default virtual `startExport`: `{ return true; }` — no state change. -/
def PhotonsAbstract.startExport (s : PhotonsAbstract) : Bool × PhotonsAbstract :=
  (true, s)

/-- Default virtual `savePhotons`: empty body. -/
def PhotonsAbstract.savePhotons (s : PhotonsAbstract) (_photons : List Photon) :
    PhotonsAbstract :=
  s

/-- Default virtual `setPhotonPower`: empty body. -/
def PhotonsAbstract.setPhotonPower (s : PhotonsAbstract) (_p : ℚ) :
    PhotonsAbstract :=
  s

/-- Default virtual `endExport`: empty body. -/
def PhotonsAbstract.endExport (s : PhotonsAbstract) : PhotonsAbstract :=
  s

/-- Default virtual `setParameter`: empty body. -/
def PhotonsAbstract.setParameter (s : PhotonsAbstract)
    (_name _value : String) : PhotonsAbstract :=
  s

/-- Static `getParameterNames`: `{ return QStringList(); }`. -/
def PhotonsAbstract.getParameterNames : List String :=
  []

/-- Embedding of `PhotonsSettings`, shaped by its use in
`PhotonsAbstract::setPhotonSettings` (the header itself is outside the
excerpt): the surface list, the five save flags, and the parameter map.
`parameters` is a `QMap<QString, QString>`; we carry its pairs in
iteration order. -/
structure PhotonsSettings where
  surfaces : List String
  saveCoordinates : Bool
  saveCoordinatesGlobal : Bool
  saveSurfaceID : Bool
  saveSurfaceSide : Bool
  savePhotonsID : Bool
  parameters : List (String × String)
deriving DecidableEq, Repr

/-- The member-copy part of `setPhotonSettings` (PhotonsAbstract.cpp
lines 21-27): `m_surfaces` and the five save flags taken from `ps`. -/
def PhotonsAbstract.copySettings (s : PhotonsAbstract) (ps : PhotonsSettings) :
    PhotonsAbstract :=
  { s with
    m_surfaces := ps.surfaces
  , m_saveCoordinates := ps.saveCoordinates
  , m_saveCoordinatesGlobal := ps.saveCoordinatesGlobal
  , m_saveSurfaceID := ps.saveSurfaceID
  , m_saveSurfaceSide := ps.saveSurfaceSide
  , m_savePhotonsID := ps.savePhotonsID }

/-- The parameter loop of `setPhotonSettings`: one virtual `setParameter`
call per `(key, value)` pair, in iteration order.  `setParam` stands for
the dynamic dispatch target (the base-class default is
`PhotonsAbstract.setParameter`); the second component records, in order,
the arguments of the calls actually made. -/
def PhotonsAbstract.runParameterLoop
    (setParam : PhotonsAbstract → String → String → PhotonsAbstract) :
    PhotonsAbstract → List (String × String) →
    PhotonsAbstract × List (String × String)
  | s, [] => (s, [])
  | s, (n, v) :: rest =>
    let s1 := setParam s n v
    let (sf, calls) := PhotonsAbstract.runParameterLoop setParam s1 rest
    (sf, (n, v) :: calls)

/-- Embedding of `PhotonsAbstract::setPhotonSettings(PhotonsSettings* ps)`
(PhotonsAbstract.cpp lines 16-31): early return on null `ps`, otherwise
copy the members and run the parameter loop.  Returns the final state and
the trace of `setParameter` calls. -/
def PhotonsAbstract.setPhotonSettings
    (setParam : PhotonsAbstract → String → String → PhotonsAbstract)
    (s : PhotonsAbstract) (ps : Option PhotonsSettings) :
    PhotonsAbstract × List (String × String) :=
  match ps with
  | none => (s, [])
  | some p =>
    PhotonsAbstract.runParameterLoop setParam
      (PhotonsAbstract.copySettings s p) p.parameters

/-! ## Launcher script (bin/TonatiuhXX launcher)

Absolute POSIX paths are embedded as lists of components.  `dirname` on
such a path drops the last component; `cd dir/.. && pwd` resolves the
trailing `..` against the (already normalized) directory. -/

/-- Component-wise resolution of `..` entries, as `cd`/`pwd` normalize a
path: a `..` removes the previous component. -/
def resolvePath (cs : List String) : List String :=
  cs.foldl (fun acc c => if c = ".." then acc.dropLast else acc ++ [c]) []

/-- Render an absolute path from its components. -/
def renderPath (cs : List String) : String :=
  "/" ++ String.intercalate "/" cs

/-- The state the launcher script hands to `exec`: the exported
`LD_LIBRARY_PATH` and the binary with its argument vector. -/
structure ExecCall where
  ldLibraryPath : String
  binary : String
  args : List String
deriving DecidableEq, Repr

/-- Embedding of the launcher script, line by line, for a script installed
at absolute path `scriptPath` (components of the script file), environment
value `oldLd` of `LD_LIBRARY_PATH`, and argument vector `args`:
`SCRIPT_DIR` is the directory containing the script, `INSTALL_ROOT`
resolves `SCRIPT_DIR/..`, the lib dir is prepended to `LD_LIBRARY_PATH`,
and `exec` runs `INSTALL_ROOT/bin/TonatiuhXX "$@"`. -/
def launcherExec (scriptPath : List String) (oldLd : String)
    (args : List String) : ExecCall :=
  let scriptDirComps := scriptPath.dropLast
  let installRootComps := resolvePath (scriptDirComps ++ [".."])
  { ldLibraryPath := renderPath installRootComps ++ "/lib:" ++ oldLd
  , binary := renderPath installRootComps ++ "/bin/TonatiuhXX"
  , args := args }

/-! ## SoQt smoketest (tests/soqt_smoketest/main.cpp)

The bootstrap is embedded as a trace machine: each statement of `main`
appends its event and updates the abstract viewer state. -/

/-- The externally visible calls made by the smoketest `main`. -/
inductive BootEvent where
  | soqtInit
  | sodbInit
  | soInteractionInit
  | newExaminerViewer
  | newCube
  | setSceneGraphCube
  | viewerShow
  | soqtShowMain
  | soqtMainLoop
  | deleteViewer
deriving DecidableEq, Repr

/-- Abstract scene-graph nodes the smoketest can hand to the viewer. -/
inductive SceneGraph where
  | cube
deriving DecidableEq, Repr

/-- Abstract state of the smoketest process. -/
structure SmoketestState where
  trace : List BootEvent
  viewerScene : Option SceneGraph
  viewerShown : Bool
deriving DecidableEq, Repr

/-- Record an event. -/
def SmoketestState.emit (s : SmoketestState) (e : BootEvent) : SmoketestState :=
  { s with trace := s.trace ++ [e] }

/-- Embedding of the smoketest `main` (main.cpp lines 7-29), statement by
statement; the result pairs the final state with the return value. -/
def smoketestMain : SmoketestState × Int :=
  let s0 : SmoketestState := { trace := [], viewerScene := none, viewerShown := false }
  let s1 := s0.emit .soqtInit
  let s2 := s1.emit .sodbInit
  let s3 := s2.emit .soInteractionInit
  let s4 := s3.emit .newExaminerViewer
  let s5 := s4.emit .newCube
  let s6 := { s5.emit .setSceneGraphCube with viewerScene := some SceneGraph.cube }
  let s7 := { s6.emit .viewerShow with viewerShown := true }
  let s8 := s7.emit .soqtShowMain
  let s9 := s8.emit .soqtMainLoop
  let s10 := s9.emit .deleteViewer
  (s10, 0)

/-- Position of the first occurrence of an event in a trace (length of the
trace when absent). -/
def tracePos (tr : List BootEvent) (e : BootEvent) : Nat :=
  tr.findIdx (fun x => x == e)

/-! ## Inventor type registration (SO_NODE_INIT_CLASS)

`SO_NODE_INIT_CLASS(C, Parent, "ParentName")` registers class `C` in the
Inventor runtime type system with `Parent` as parent type.  The registry
is embedded as a list of (class, parent) entries. -/

/-- One entry of the Inventor type registry. -/
structure SoTypeEntry where
  className : String
  parentName : String
deriving DecidableEq, Repr

/-- Embedding of `SunNode3D::initClass`:
`SO_NODE_INIT_CLASS(SunNode3D, SoSeparator, "Separator")`. -/
def sunNode3DInitClass (reg : List SoTypeEntry) : List SoTypeEntry :=
  reg ++ [⟨"SunNode3D", "SoSeparator"⟩]

/-- Embedding of `SkyNode3D::initClass`:
`SO_NODE_INIT_CLASS(SkyNode3D, SoSeparator, "Separator")`. -/
def skyNode3DInitClass (reg : List SoTypeEntry) : List SoTypeEntry :=
  reg ++ [⟨"SkyNode3D", "SoSeparator"⟩]

/-- The C++ base class of each class of the excerpt, from the class-head
declarations (`class SunNode3D : public SoSeparator`,
`class SkyNode3D : public SoSeparator`). -/
def cppBaseClass : String → Option String
  | "SunNode3D" => some "SoSeparator"
  | "SkyNode3D" => some "SoSeparator"
  | _ => none

/-- A concrete sun node with identity rotation whose sensor is attached to
the sun position (azimuth `az`, elevation `el`), for evaluating the update
embedding. -/
def exampleSunNode (az el : ℚ) : SunNode3D :=
  { m_transform := some { rotation := SbRot.identity }
  , m_sensor := some { attachedNode := some { azimuth := az, elevation := el } } }

/-- A concrete sun node with identity rotation and no sensor. -/
def exampleSunNodeNoSensor : SunNode3D :=
  { m_transform := some { rotation := SbRot.identity }, m_sensor := none }

/-! ## Theorems -/

/-- Claim C1, counterexample: `SunNode3D::update` is not a stub.  On a node
whose sensor is attached to a SunPosition with elevation 90 and azimuth 0,
invoking update does rotate the sun transform: the result differs from the
input state (the rotation changes from the identity to
Rx(180 deg) * Rz(0 deg), a genuine half-turn about the x axis). -/
theorem sunNode3D_update_not_noop :
    SunNode3D.update (some (exampleSunNode 0 90)) ≠
      some (exampleSunNode 0 90) := by
  decide

/-- Claim C1 (amended): the rotation math of `SunNode3D::update` is fully
defined in the visible source, not a stub: invoking update on a node whose
sensor is attached to a SunPosition assigns the sun transform the rotation
Rx((90 + elevation) deg) * Rz((-azimuth) deg). -/
theorem sunNode3D_update_has_rotationMath (tr : SoTransform)
    (sp : SunPosition) (node : SunNode3D)
    (ht : node.m_transform = some tr)
    (hs : node.m_sensor = some { attachedNode := some sp }) :
    SunNode3D.update (some node) =
      some { node with m_transform := some { rotation := SbRot.mul (SbRot.axisAngleDeg xAxis (90 + sp.elevation)) (SbRot.axisAngleDeg zAxis (-sp.azimuth)) } } := by
  simp [SunNode3D.update, ht, hs, sunRot]

/-- Claim C1 (amended), witness at a concrete node. -/
theorem sunNode3D_update_has_rotationMath_witness :
    SunNode3D.update (some (exampleSunNode 10 20)) =
      some { exampleSunNode 10 20 with m_transform := some { rotation := SbRot.mul (SbRot.axisAngleDeg xAxis (90 + 20)) (SbRot.axisAngleDeg zAxis (-10)) } } :=
  sunNode3D_update_has_rotationMath
    { rotation := SbRot.identity } { azimuth := 10, elevation := 20 }
    (exampleSunNode 10 20) rfl rfl

/-- Claim C2: on a node whose sensor is attached to a SunPosition with
azimuth gamma and elevation alpha (degrees), update sets the transform
rotation to Rx((90 + alpha) deg) * Rz((-gamma) deg); when no SunPosition
is attached, or the node, its sensor, or its transform is null, update
returns with everything unchanged. -/
theorem sunNode3D_update_spec :
    (∀ (tr : SoTransform) (sp : SunPosition) (node : SunNode3D),
      node.m_transform = some tr →
      node.m_sensor = some { attachedNode := some sp } →
      SunNode3D.update (some node) =
        some { node with m_transform := some { rotation := SbRot.mul (SbRot.axisAngleDeg xAxis (90 + sp.elevation)) (SbRot.axisAngleDeg zAxis (-sp.azimuth)) } }) ∧
    SunNode3D.update none = none ∧
    (∀ node : SunNode3D, node.m_sensor = none →
      SunNode3D.update (some node) = some node) ∧
    (∀ node : SunNode3D, node.m_transform = none →
      SunNode3D.update (some node) = some node) ∧
    (∀ node : SunNode3D, node.m_sensor = some { attachedNode := none } →
      SunNode3D.update (some node) = some node) := by
  refine ⟨?_, rfl, ?_, ?_, ?_⟩
  · intro tr sp node ht hs
    simp [SunNode3D.update, ht, hs, sunRot]
  · intro node hs
    simp [SunNode3D.update, hs]
  · intro node ht
    cases hsen : node.m_sensor <;> simp [SunNode3D.update, ht, hsen]
  · intro node hs
    cases htr : node.m_transform <;> simp [SunNode3D.update, hs, htr]

/-- Claim C2, witness: the attached case at a concrete sun position, and a
null-sensor case left unchanged. -/
theorem sunNode3D_update_spec_witness :
    SunNode3D.update (some (exampleSunNode 180 45)) =
      some { exampleSunNode 180 45 with m_transform := some { rotation := SbRot.mul (SbRot.axisAngleDeg xAxis (90 + 45)) (SbRot.axisAngleDeg zAxis (-180)) } } ∧
    SunNode3D.update (some exampleSunNodeNoSensor) =
      some exampleSunNodeNoSensor :=
  ⟨sunNode3D_update_spec.1
      { rotation := SbRot.identity } { azimuth := 180, elevation := 45 }
      (exampleSunNode 180 45) rfl rfl,
   sunNode3D_update_spec.2.2.1 exampleSunNodeNoSensor rfl⟩

/-- Claim C3: `intersect`, `updateTree` and the two `QDataStream`
operators of InstanceNode are declared in the excerpt but given no
definition there, so the excerpt fixes no intersection, propagation or
serialization behavior for them. -/
theorem instanceNode_declaredOnly :
    (instanceNodeDeclares "intersect" = true ∧
     instanceNodeDefines "intersect" = false) ∧
    (instanceNodeDeclares "updateTree" = true ∧
     instanceNodeDefines "updateTree" = false) ∧
    (instanceNodeDeclares "operator<<" = true ∧
     instanceNodeDefines "operator<<" = false) ∧
    (instanceNodeDeclares "operator>>" = true ∧
     instanceNodeDefines "operator>>" = false) := by
  decide

/-- Claim C4: the PhotonsAbstract defaults are trivial: `startExport`
returns true and leaves the state alone, `savePhotons`, `setPhotonPower`,
`endExport` and `setParameter` leave the state unchanged, and the static
`getParameterNames` returns the empty list. -/
theorem photonsAbstract_trivial_defaults :
    (∀ s : PhotonsAbstract, PhotonsAbstract.startExport s = (true, s)) ∧
    (∀ (s : PhotonsAbstract) (photons : List Photon),
      PhotonsAbstract.savePhotons s photons = s) ∧
    (∀ (s : PhotonsAbstract) (p : ℚ),
      PhotonsAbstract.setPhotonPower s p = s) ∧
    (∀ s : PhotonsAbstract, PhotonsAbstract.endExport s = s) ∧
    (∀ (s : PhotonsAbstract) (n v : String),
      PhotonsAbstract.setParameter s n v = s) ∧
    PhotonsAbstract.getParameterNames = [] :=
  ⟨fun _ => rfl, fun _ _ => rfl, fun _ _ => rfl, fun _ => rfl,
   fun _ _ _ => rfl, rfl⟩

/-- Claim C5: after the constructor, `m_saveCoordinatesGlobal` is true —
the initializer list overriding the in-class initializer of false — while
the other five flags are false, `m_sceneModel` is null and `m_surfaces`
is empty. -/
theorem photonsAbstract_construct_state :
    PhotonsAbstract.construct.m_saveCoordinatesGlobal = true ∧
    PhotonsAbstract.inClassInit.m_saveCoordinatesGlobal = false ∧
    PhotonsAbstract.construct.m_saveAllPhotonsData = false ∧
    PhotonsAbstract.construct.m_saveCoordinates = false ∧
    PhotonsAbstract.construct.m_saveSurfaceID = false ∧
    PhotonsAbstract.construct.m_saveSurfaceSide = false ∧
    PhotonsAbstract.construct.m_savePhotonsID = false ∧
    PhotonsAbstract.construct.m_sceneModel = none ∧
    PhotonsAbstract.construct.m_surfaces = [] := by
  decide

/-- The parameter loop of `setPhotonSettings` calls `setParam` once per
pair, in order: its call trace is the parameter list itself and the state
threads through a left fold of the calls. -/
theorem runParameterLoop_eq
    (setParam : PhotonsAbstract → String → String → PhotonsAbstract) :
    ∀ (ps : List (String × String)) (s : PhotonsAbstract),
      PhotonsAbstract.runParameterLoop setParam s ps =
        (ps.foldl (fun a pr => setParam a pr.1 pr.2) s, ps) := by
  intro ps
  induction ps with
  | nil => intro s; rfl
  | cons hd tl ih =>
    intro s
    simp [PhotonsAbstract.runParameterLoop, ih (setParam s hd.1 hd.2)]

/-- Claim C6: `setPhotonSettings` on a null pointer leaves every member
unchanged and makes no `setParameter` call; on a non-null settings object
it copies `m_surfaces` and the five save flags and then calls the virtual
`setParameter` exactly once per `(name, value)` pair, in iteration
order. -/
theorem photonsAbstract_setPhotonSettings_spec
    (setParam : PhotonsAbstract → String → String → PhotonsAbstract)
    (s : PhotonsAbstract) :
    PhotonsAbstract.setPhotonSettings setParam s none = (s, []) ∧
    ∀ p : PhotonsSettings,
      PhotonsAbstract.setPhotonSettings setParam s (some p) =
        (p.parameters.foldl (fun a pr => setParam a pr.1 pr.2)
          { s with
            m_surfaces := p.surfaces
          , m_saveCoordinates := p.saveCoordinates
          , m_saveCoordinatesGlobal := p.saveCoordinatesGlobal
          , m_saveSurfaceID := p.saveSurfaceID
          , m_saveSurfaceSide := p.saveSurfaceSide
          , m_savePhotonsID := p.savePhotonsID }, p.parameters) := by
  refine ⟨rfl, fun p => ?_⟩
  simp [PhotonsAbstract.setPhotonSettings, PhotonsAbstract.copySettings,
        runParameterLoop_eq]

/-- Auxiliary: folding the path step over `..`-free components appends
them to the accumulator. -/
theorem resolvePath_foldl_noDotDot (cs : List String) :
    ∀ acc : List String, ".." ∉ cs →
      cs.foldl (fun a c => if c = ".." then a.dropLast else a ++ [c]) acc =
        acc ++ cs := by
  induction cs with
  | nil => intro acc _; simp
  | cons hd tl ih =>
    intro acc h
    have hhd : hd ≠ ".." := fun he => h (he ▸ List.mem_cons_self hd tl)
    have htl : ".." ∉ tl := fun hm => h (List.mem_cons_of_mem hd hm)
    simp [List.foldl_cons, hhd, ih (acc ++ [hd]) htl]

/-- Claim C7: for every argument vector, the launcher prepends
`INSTALL_ROOT/lib` to `LD_LIBRARY_PATH` and execs
`INSTALL_ROOT/bin/TonatiuhXX` with all arguments forwarded unchanged and
in order, where `INSTALL_ROOT` is the parent of the directory containing
the script (an absolute, already normalized path: no `..` component). -/
theorem launcherExec_spec (scriptPath : List String) (oldLd : String)
    (args : List String) (hnd : ".." ∉ scriptPath) :
    launcherExec scriptPath oldLd args =
      { ldLibraryPath :=
          renderPath (scriptPath.dropLast.dropLast) ++ "/lib:" ++ oldLd
      , binary :=
          renderPath (scriptPath.dropLast.dropLast) ++ "/bin/TonatiuhXX"
      , args := args } := by
  have hsub : ".." ∉ scriptPath.dropLast :=
    fun hm => hnd (List.dropLast_subset scriptPath hm)
  have hres : resolvePath (scriptPath.dropLast ++ [".."]) =
      scriptPath.dropLast.dropLast := by
    simp [resolvePath, List.foldl_append,
          resolvePath_foldl_noDotDot scriptPath.dropLast [] hsub]
  simp [launcherExec, hres]

/-- Claim C7, witness: the launcher installed at
`/opt/tonatiuh/bin/tonatiuh.sh`. -/
theorem launcherExec_spec_witness :
    launcherExec ["opt", "tonatiuh", "bin", "tonatiuh.sh"] "/usr/lib"
        ["scene.tnh", "-q"] =
      { ldLibraryPath := "/opt/tonatiuh/lib:/usr/lib"
      , binary := "/opt/tonatiuh/bin/TonatiuhXX"
      , args := ["scene.tnh", "-q"] } := by
  rw [launcherExec_spec ["opt", "tonatiuh", "bin", "tonatiuh.sh"] "/usr/lib"
        ["scene.tnh", "-q"] (by decide)]
  rfl

/-- Claim C8: the smoketest performs the bootstrap in the fixed order
SoQt::init, SoDB::init, SoInteraction::init, viewer creation, cube
creation, setSceneGraph, viewer show, SoQt::show, SoQt::mainLoop; the
viewer scene graph is a single SoCube and main returns 0 after the
loop. -/
theorem smoketestMain_spec :
    smoketestMain.1.trace =
      [BootEvent.soqtInit, BootEvent.sodbInit, BootEvent.soInteractionInit,
       BootEvent.newExaminerViewer, BootEvent.newCube,
       BootEvent.setSceneGraphCube, BootEvent.viewerShow,
       BootEvent.soqtShowMain, BootEvent.soqtMainLoop,
       BootEvent.deleteViewer] ∧
    smoketestMain.1.viewerScene = some SceneGraph.cube ∧
    smoketestMain.1.viewerShown = true ∧
    tracePos smoketestMain.1.trace BootEvent.soqtInit <
      tracePos smoketestMain.1.trace BootEvent.sodbInit ∧
    tracePos smoketestMain.1.trace BootEvent.sodbInit <
      tracePos smoketestMain.1.trace BootEvent.soInteractionInit ∧
    tracePos smoketestMain.1.trace BootEvent.setSceneGraphCube <
      tracePos smoketestMain.1.trace BootEvent.viewerShow ∧
    tracePos smoketestMain.1.trace BootEvent.viewerShow <
      tracePos smoketestMain.1.trace BootEvent.soqtMainLoop ∧
    smoketestMain.2 = 0 := by
  decide

/-- Claim C9: SunNode3D and SkyNode3D derive from SoSeparator, and each
`initClass` registers the class in the Inventor type system with
SoSeparator as parent, whatever the prior registry contents. -/
theorem sceneNodes_are_soSeparators :
    cppBaseClass "SunNode3D" = some "SoSeparator" ∧
    cppBaseClass "SkyNode3D" = some "SoSeparator" ∧
    ∀ reg : List SoTypeEntry,
      (⟨"SunNode3D", "SoSeparator"⟩ : SoTypeEntry) ∈ sunNode3DInitClass reg ∧
      (⟨"SkyNode3D", "SoSeparator"⟩ : SoTypeEntry) ∈ skyNode3DInitClass reg := by
  refine ⟨rfl, rfl, fun reg => ⟨?_, ?_⟩⟩ <;>
    simp [sunNode3DInitClass, skyNode3DInitClass]

end Tonatiuh
